import Mathlib

/-!
Shallow embedding of the ticket-tracker view layer (src/tickets/views.py)
and proofs about its behaviour.

Querysets are modelled semantically: a queryset ordered by "-created_on"
and filtered by a predicate evaluates, over a database given as a list of
rows, to the stable descending sort (by creation time) of the rows
satisfying the predicate.  Components of the application that are not part
of the source tree (models.py, forms.py, utils.py, filters.py) are modelled
from the specification, each marked as such in its doc comment.
-/

namespace TicketApp

/-- A user of the application.  The admin flag records the result of the
access-control predicate from the tickets utils module. -/
structure User where
  id : Nat
  username : String
  isAdmin : Bool
  deriving Repr, DecidableEq

/-- A row of the Ticket model.  Foreign keys to users are stored as the
referenced user id together with the username the ORM would join in. -/
structure Ticket where
  id : Nat
  title : String
  description : String
  status : String
  ticketType : String
  submittedBy : Option Nat
  submittedByUsername : Option String
  assignedTo : Option Nat
  assignedToUsername : Option String
  createdOn : Nat
  tags : List String
  deriving Repr, DecidableEq

/-- A row of the FollowUp model: a comment attached to a ticket. -/
structure FollowUp where
  id : Nat
  ticketPk : Nat
  isPrivate : Bool
  createdOn : Nat
  deriving Repr, DecidableEq

/-- Modelled from the spec: utils.is_admin (utils.py is not in the source
tree); the single role predicate the views consult for access control. -/
def is_admin (u : User) : Bool := u.isAdmin

/-- Modelled from the spec: Ticket.get_absolute_url (models.py is not in
the source tree); the canonical detail URL of a ticket. -/
def Ticket.get_absolute_url (t : Ticket) : String :=
  "/tickets/" ++ toString t.id ++ "/"

/-- Modelled from the spec: reverse of the tickets:ticket_list URL name. -/
def ticket_list_url : String := "/tickets/"

/-- Insert an element into a list that is sorted descending by the key. -/
def insertDescBy (key : α → Nat) (a : α) : List α → List α
  | [] => [a]
  | b :: l => if key b ≤ key a then a :: b :: l else b :: insertDescBy key a l

/-- Sort a list descending by the key: the semantics of order_by with a
descending column. -/
def sortDescBy (key : α → Nat) : List α → List α
  | [] => []
  | a :: l => insertDescBy key a (sortDescBy key l)

/-- Does the first character list occur at the head of the second one. -/
def charsStartWith : List Char → List Char → Bool
  | [], _ => true
  | _ :: _, [] => false
  | n :: ns, h :: hs => n == h && charsStartWith ns hs

/-- Does the first character list occur anywhere inside the second one. -/
def charsContain (needle : List Char) : List Char → Bool
  | [] => needle.isEmpty
  | h :: hs => charsStartWith needle (h :: hs) || charsContain needle hs

/-- The ORM icontains lookup: case-insensitive substring containment. -/
def icontains (hay needle : String) : Bool :=
  charsContain (needle.toList.map Char.toLower) (hay.toList.map Char.toLower)

/-- Python truthiness of an optional string: None and the empty string are
falsy, anything else is truthy. -/
def truthy : Option String → Option String
  | none => none
  | some s => if s.isEmpty then none else some s

/-- Modelled from the spec: the FollowUp.all_comments manager (models.py is
not in the source tree) returns every follow-up, private ones included. -/
def FollowUp.all_comments (db : List FollowUp) : List FollowUp := db

/-- Modelled from the spec: the default FollowUp.objects manager (models.py
is not in the source tree) returns only the public follow-ups. -/
def FollowUp.objects (db : List FollowUp) : List FollowUp :=
  db.filter (fun f => !f.isPrivate)

/-- TicketDetailView.get_context_data: the comments placed in the context
for the given requesting user and ticket, over the follow-up table. -/
def detailComments (user : User) (ticket : Ticket) (db : List FollowUp) :
    List FollowUp :=
  if is_admin user || ticket.submittedBy == some user.id then
    sortDescBy FollowUp.createdOn
      ((FollowUp.all_comments db).filter (fun f => f.ticketPk == ticket.id))
  else
    sortDescBy FollowUp.createdOn
      ((FollowUp.objects db).filter (fun f => f.ticketPk == ticket.id))

/-- TagIndexView.paginate_by (RECORDS_PER_PAGE). -/
def TagIndexView.paginate_by : Nat := 50

/-- TagIndexView.get_queryset: tickets bearing a tag with the given slug. -/
def TagIndexView.get_queryset (slug : String) (db : List Ticket) : List Ticket :=
  db.filter (fun t => t.tags.contains slug)

/-- A request to TicketListView: the q query-string value, the username,
what, type and status URL kwargs, and the predicate the django-filter
TicketFilter built from the remaining GET parameters.  Modelled from the
spec: filters.py is not in the source tree, so TicketFilter is modelled as
an arbitrary row predicate derived from the GET parameters; when no filter
parameter is present it keeps every row. -/
structure ListRequest where
  q : Option String
  username : Option String
  what : Option String
  ticketType : Option String
  ticketStatus : Option String
  filterPred : Ticket → Bool

/-- The q step of TicketListView.get_queryset: filter by
Q(description icontains q) or Q(title icontains q) when q is truthy. -/
def qStep (q : Option String) (t : Ticket) : Bool :=
  match truthy q with
  | some s => icontains t.description s || icontains t.title s
  | none => true

/-- The username step of TicketListView.get_queryset. -/
def usernameStep (username what : Option String) (t : Ticket) : Bool :=
  match truthy username with
  | some u =>
    if what == some "submitted_by" then t.submittedByUsername == some u
    else if what == some "assigned_to" then t.assignedToUsername == some u
    else t.submittedByUsername == some u || t.assignedToUsername == some u
  | none => true

/-- The ticket_type step of TicketListView.get_queryset. -/
def typeStep (ty : Option String) (t : Ticket) : Bool :=
  match truthy ty with
  | some s => t.ticketType == s
  | none => true

/-- The closed_codes list of TicketListView.get_queryset. -/
def closedCodes : List String := ["closed", "split", "duplicate"]

/-- The status filter TicketListView.get_queryset rebuilds from
Ticket.objects when a status kwarg is present: filter on closed codes for
status closed, exclude them otherwise. -/
def statusPred (st : String) (t : Ticket) : Bool :=
  if st == "closed" then closedCodes.contains t.status
  else !(closedCodes.contains t.status)

/-- The row predicate of the queryset TicketListView.get_queryset returns:
when the status kwarg is truthy the queryset is rebuilt from Ticket.objects
with the status filter alone, replacing the q, username and type steps;
the TicketFilter predicate is applied to the result in either case. -/
def listQueryPred (r : ListRequest) (t : Ticket) : Bool :=
  (match truthy r.ticketStatus with
   | some st => statusPred st t
   | none => qStep r.q t && usernameStep r.username r.what t
       && typeStep r.ticketType t)
  && r.filterPred t

/-- TicketListView.get_queryset evaluated over the ticket table: every
branch of the source orders by created_on descending. -/
def getQueryset (r : ListRequest) (db : List Ticket) : List Ticket :=
  sortDescBy Ticket.createdOn (db.filter (listQueryPred r))

/-- A logged-in request to the TicketUpdateView function view.  isPost
records the truthiness of request.POST. -/
structure UpdateRequest where
  user : User
  pk : Option Nat
  isPost : Bool
  deriving Repr, DecidableEq

/-- The response of a function view in this module.  notFound stands for
the Http404 that get_object_or_404 raises for the framework to handle;
nameError stands for an unhandled Python NameError escaping the view. -/
inductive Response where
  | redirect (url : String)
  | rendered (template : String)
  | notFound
  | nameError (missing : String)
  deriving Repr, DecidableEq

/-- TicketUpdateView.  With a pk it loads the ticket through
get_object_or_404 and redirects a requester who is neither the submitter
nor an admin; past that guard both the POST and the GET branch evaluate
the name TicketForm, which the module neither defines nor imports, so
Python raises NameError there. -/
def TicketUpdateView (req : UpdateRequest) (db : List Ticket) : Response :=
  match req.pk with
  | some pk =>
    match db.find? (fun t => t.id == pk) with
    | none => Response.notFound
    | some ticket =>
      if !(ticket.submittedBy == some req.user.id || is_admin req.user) then
        Response.redirect ticket.get_absolute_url
      else if req.isPost then Response.nameError "TicketForm"
      else Response.nameError "TicketForm"
  | none =>
    if req.isPost then Response.nameError "TicketForm"
    else Response.nameError "TicketForm"

/-- Does the TicketUpdateView ownership guard pass: no pk given, or the
ticket exists and the requester is its submitter or an admin. -/
def updateGuard (req : UpdateRequest) (db : List Ticket) : Bool :=
  match req.pk with
  | none => true
  | some pk =>
    match db.find? (fun t => t.id == pk) with
    | none => false
    | some ticket => ticket.submittedBy == some req.user.id || is_admin req.user

/-- The four form classes TicketCommentView can instantiate. -/
inductive FormKind where
  | close
  | comment
  | accept
  | assign
  deriving Repr, DecidableEq

/-- Which form class the POST dispatch of TicketCommentView instantiates
for a given action value: the assign branch is the trailing else. -/
def selectForm (action : String) : FormKind :=
  if action == "closed" || action == "reopened" then FormKind.close
  else if action == "comment" then FormKind.comment
  else if action == "accept" then FormKind.accept
  else FormKind.assign

/-- A logged-in request to TicketCommentView.  isPost records the
truthiness of request.POST; formValid records the verdict of the
form.is_valid call of the selected bound form (forms.py is not in the
source tree, so validation is an oracle of the request). -/
structure CommentRequest where
  user : User
  pk : Nat
  action : String
  isPost : Bool
  formValid : Bool
  deriving Repr, DecidableEq

/-- The outcome of TicketCommentView: redirect to the ticket list when the
ticket does not exist, redirect to the ticket page for a non-admin on a
non-comment action, a form.save followed by a redirect to the ticket page,
or a rendered form page. -/
inductive CommentResult where
  | redirectToList
  | redirectToTicket (pk : Nat)
  | savedAndRedirect (form : FormKind) (pk : Nat)
  | renderedForm (template : String) (form : FormKind) (action : String)
  deriving Repr, DecidableEq

/-- TicketCommentView over the ticket table, following the source: the
Ticket.DoesNotExist handler redirects to the ticket list; a non-admin is
redirected to the ticket page for any action other than comment; on a
truthy POST the action dispatch instantiates the form (the assign form in
the trailing else), saving and redirecting when it validates and
re-rendering the bound form otherwise; on GET an unbound form is rendered,
with the action renamed to re-assign when the ticket is already assigned. -/
def TicketCommentView (req : CommentRequest) (db : List Ticket) : CommentResult :=
  match db.find? (fun t => t.id == req.pk) with
  | none => CommentResult.redirectToList
  | some ticket =>
    if !(is_admin req.user) && !(req.action == "comment") then
      CommentResult.redirectToTicket ticket.id
    else
      let template :=
        if req.action == "closed" || req.action == "reopened" then
          "tickets/close_reopen_ticket_form.html"
        else "tickets/comment_form.html"
      if req.isPost then
        if req.formValid then
          CommentResult.savedAndRedirect (selectForm req.action) ticket.id
        else
          CommentResult.renderedForm template (selectForm req.action) req.action
      else
        let action :=
          if ticket.assignedTo.isSome && req.action == "assign" then "re-assign"
          else req.action
        CommentResult.renderedForm template (selectForm req.action) action

/-- The search predicate named by the specification: the title or the
description contains the query case-insensitively. -/
def matchesQ (s : String) (t : Ticket) : Bool :=
  icontains t.description s || icontains t.title s

/-- A concrete non-admin user who submitted ticket tAlpha. -/
def uSam : User := { id := 9, username := "sam", isAdmin := false }

/-- A concrete non-admin user unrelated to ticket tAlpha. -/
def uPat : User := { id := 7, username := "pat", isAdmin := false }

/-- A concrete admin user. -/
def uAda : User := { id := 3, username := "ada", isAdmin := true }

/-- A concrete open ticket submitted by uSam, unassigned. -/
def tAlpha : Ticket :=
  { id := 1, title := "Bug one", description := "boom",
    status := "new", ticketType := "bug", submittedBy := some 9,
    submittedByUsername := some "sam", assignedTo := none,
    assignedToUsername := none, createdOn := 10, tags := ["ui"] }

/-- A concrete closed ticket submitted by uPat, assigned to uAda. -/
def tBeta : Ticket :=
  { id := 2, title := "Export", description := "add csv",
    status := "closed", ticketType := "feature", submittedBy := some 7,
    submittedByUsername := some "pat", assignedTo := some 3,
    assignedToUsername := some "ada", createdOn := 20, tags := ["io"] }

/-- A concrete public follow-up on ticket tAlpha. -/
def fuPub : FollowUp := { id := 1, ticketPk := 1, isPrivate := false, createdOn := 5 }

/-- A concrete private follow-up on ticket tAlpha. -/
def fuPriv : FollowUp := { id := 2, ticketPk := 1, isPrivate := true, createdOn := 6 }

/-- A concrete list request carrying a query, a username kwarg and a status
kwarg, with a TicketFilter that keeps every row. -/
def rStatus : ListRequest :=
  { q := some "bug", username := some "sam", what := none,
    ticketType := some "bug", ticketStatus := some "closed",
    filterPred := fun _ => true }

/-- A concrete list request carrying the query bug together with a
username kwarg that matches no ticket, and no status kwarg. -/
def rSearch : ListRequest :=
  { q := some "bug", username := some "alice", what := none,
    ticketType := none, ticketStatus := none, filterPred := fun _ => true }

/-- A concrete list request whose only parameter is the query bug. -/
def rQuery : ListRequest :=
  { q := some "bug", username := none, what := none, ticketType := none,
    ticketStatus := none, filterPred := fun _ => true }

end TicketApp

namespace TicketApp

theorem insertDescBy_perm (key : α → Nat) (a : α) (l : List α) :
    List.Perm (insertDescBy key a l) (a :: l) := by
  induction l with
  | nil => exact List.Perm.refl _
  | cons b l ih =>
    simp only [insertDescBy]
    split
    · exact List.Perm.refl _
    · exact (ih.cons b).trans (List.Perm.swap a b l)

theorem sortDescBy_perm (key : α → Nat) (l : List α) :
    List.Perm (sortDescBy key l) l := by
  induction l with
  | nil => exact List.Perm.refl _
  | cons a l ih => exact (insertDescBy_perm key a _).trans (ih.cons a)

theorem mem_sortDescBy (key : α → Nat) (l : List α) (x : α) :
    x ∈ sortDescBy key l ↔ x ∈ l :=
  (sortDescBy_perm key l).mem_iff

theorem insertDescBy_pairwise (key : α → Nat) (a : α) (l : List α)
    (h : List.Pairwise (fun x y => key y ≤ key x) l) :
    List.Pairwise (fun x y => key y ≤ key x) (insertDescBy key a l) := by
  induction l with
  | nil => simp [insertDescBy]
  | cons b l ih =>
    rcases h with - | ⟨hb, hl⟩
    simp only [insertDescBy]
    split
    · refine List.Pairwise.cons ?_ (List.Pairwise.cons hb hl)
      intro y hy
      rcases List.mem_cons.mp hy with rfl | hy
      · assumption
      · exact le_trans (hb y hy) (by assumption)
    · refine List.Pairwise.cons ?_ (ih hl)
      intro y hy
      rcases List.mem_cons.mp ((insertDescBy_perm key a l).mem_iff.mp hy) with rfl | hy
      · exact le_of_not_le (by assumption)
      · exact hb y hy

theorem sortDescBy_pairwise (key : α → Nat) (l : List α) :
    List.Pairwise (fun x y => key y ≤ key x) (sortDescBy key l) := by
  induction l with
  | nil => exact List.Pairwise.nil
  | cons a l ih => exact insertDescBy_pairwise key a _ ih

theorem filter_comm_and (p q : α → Bool) (l : List α) :
    (l.filter p).filter q = l.filter (fun a => p a && q a) := by
  induction l with
  | nil => rfl
  | cons a l ih =>
    by_cases hp : p a = true <;> by_cases hq : q a = true <;>
      simp [List.filter_cons, hp, hq, ih]

theorem updateView_eq_nameError_iff (req : UpdateRequest) (db : List Ticket) :
    TicketUpdateView req db = Response.nameError "TicketForm" ↔
      updateGuard req db = true := by
  unfold TicketUpdateView updateGuard
  cases hpk : req.pk with
  | none => simp
  | some pk =>
    cases hf : db.find? (fun t => t.id == pk) with
    | none => simp [hf]
    | some ticket =>
      cases hg : (ticket.submittedBy == some req.user.id || is_admin req.user) with
      | true => simp [hf, hg]
      | false => simp [hf, hg]

/-- Claim C1 counterexample: a logged-in GET to TicketUpdateView with no pk
escapes with an unhandled NameError rather than resolving through form
validation or a redirect, refuting the blanket no-exception claim. -/
theorem error_paths_cx :
    TicketUpdateView { user := uSam, pk := none, isPost := false } [] =
      Response.nameError "TicketForm" := by decide

/-- Claim C1 (amended): except for the NameError that TicketUpdateView
raises exactly when its ownership guard passes (the module references the
undefined name TicketForm there), error paths resolve through the
framework: TicketCommentView on a nonexistent pk redirects to the ticket
list, and TicketUpdateView on a nonexistent pk resolves through the 404
helper. -/
theorem error_paths_resolve :
    (∀ (creq : CommentRequest) (db : List Ticket),
        db.find? (fun t => t.id == creq.pk) = none →
        TicketCommentView creq db = CommentResult.redirectToList) ∧
    (∀ (ureq : UpdateRequest) (db : List Ticket) (pk : Nat),
        ureq.pk = some pk → db.find? (fun t => t.id == pk) = none →
        TicketUpdateView ureq db = Response.notFound) ∧
    (∀ (ureq : UpdateRequest) (db : List Ticket),
        TicketUpdateView ureq db = Response.nameError "TicketForm" ↔
          updateGuard ureq db = true) := by
  refine ⟨?_, ?_, fun ureq db => updateView_eq_nameError_iff ureq db⟩
  · intro creq db h
    unfold TicketCommentView
    rw [h]
  · intro ureq db pk hpk h
    unfold TicketUpdateView
    rw [hpk]
    dsimp only
    rw [h]

/-- Claim C1 witness: the redirect and 404 paths at concrete requests. -/
theorem error_paths_resolve_witness :
    TicketCommentView
        { user := uSam, pk := 42, action := "comment", isPost := false,
          formValid := false } [tAlpha] = CommentResult.redirectToList ∧
    TicketUpdateView { user := uSam, pk := some 42, isPost := false } [tAlpha] =
      Response.notFound :=
  ⟨error_paths_resolve.1 _ _ (by decide),
   error_paths_resolve.2.1 _ _ 42 rfl (by decide)⟩

/-- Claim C2: every logged-in request that passes the TicketUpdateView
ownership guard (no pk, or the requester is the submitter of the existing
ticket or an admin) reaches the undefined name TicketForm, so the view
raises NameError on GET and POST alike and never renders or redirects. -/
theorem updateView_raises_nameError (req : UpdateRequest) (db : List Ticket)
    (h : updateGuard req db = true) :
    TicketUpdateView req db = Response.nameError "TicketForm" :=
  (updateView_eq_nameError_iff req db).mpr h

/-- Claim C2 witness: the submitter of ticket tAlpha posting an update. -/
theorem updateView_raises_nameError_witness :
    TicketUpdateView { user := uSam, pk := some 1, isPost := true } [tAlpha] =
      Response.nameError "TicketForm" :=
  updateView_raises_nameError _ _ (by decide)

/-- Claim C3 counterexample: uSam submitted ticket tAlpha and uPat did not;
both are non-admins, yet TicketUpdateView answers them differently, so the
branch taken depends on the ownership test the module computes itself. -/
theorem own_access_control_cx :
    TicketUpdateView { user := uSam, pk := some 1, isPost := false } [tAlpha] ≠
      TicketUpdateView { user := uPat, pk := some 1, isPost := false } [tAlpha] := by
  decide

/-- Claim C3 (amended): persistence, query building and pagination are
delegated to the framework, but the module performs access control of its
own: TicketCommentView redirects every non-admin away from every action
other than comment, and TicketUpdateView redirects every requester who is
neither the submitter of the ticket nor an admin. -/
theorem own_access_control :
    (∀ (req : CommentRequest) (db : List Ticket) (t : Ticket),
        db.find? (fun x => x.id == req.pk) = some t →
        is_admin req.user = false → (req.action == "comment") = false →
        TicketCommentView req db = CommentResult.redirectToTicket t.id) ∧
    (∀ (req : UpdateRequest) (db : List Ticket) (pk : Nat) (t : Ticket),
        req.pk = some pk → db.find? (fun x => x.id == pk) = some t →
        (t.submittedBy == some req.user.id || is_admin req.user) = false →
        TicketUpdateView req db = Response.redirect t.get_absolute_url) := by
  constructor
  · intro req db t hf ha hc
    unfold TicketCommentView
    rw [hf]
    simp [ha, hc]
  · intro req db pk t hpk hf hg
    unfold TicketUpdateView
    rw [hpk]
    dsimp only
    rw [hf]
    simp [hg]

/-- Claim C3 witness: the access-control redirects at concrete requests. -/
theorem own_access_control_witness :
    TicketCommentView
        { user := uPat, pk := 1, action := "closed", isPost := false,
          formValid := false } [tAlpha] = CommentResult.redirectToTicket tAlpha.id ∧
    TicketUpdateView { user := uPat, pk := some 1, isPost := false } [tAlpha] =
      Response.redirect tAlpha.get_absolute_url :=
  ⟨own_access_control.1 _ _ tAlpha (by decide) (by decide) (by decide),
   own_access_control.2 _ _ 1 tAlpha rfl (by decide) (by decide)⟩

/-- Claim C4 counterexample: the assign arm of the POST dispatch of
TicketCommentView is a trailing else, so the out-of-vocabulary action
bogus posted by an admin still instantiates AssignTicketForm and reaches
form.save, refuting the claim that no action outside the five named values
reaches a save. -/
theorem comment_actions_cx :
    TicketCommentView
        { user := uAda, pk := 1, action := "bogus", isPost := true,
          formValid := true } [tAlpha] =
      CommentResult.savedAndRedirect FormKind.assign 1 := by decide

/-- Claim C4 (amended): for every truthy POST on an existing ticket by an
authorized requester (an admin, or anyone when the action is comment), the
action value selects the form class: closed and reopened select the close
form, comment the comment form, accept the accept form, and every other
value, assign included, falls to the trailing else and selects the assign
form, so an unknown action also reaches a form save when its form
validates. -/
theorem comment_actions :
    (selectForm "closed" = FormKind.close ∧ selectForm "reopened" = FormKind.close ∧
      selectForm "comment" = FormKind.comment ∧ selectForm "accept" = FormKind.accept ∧
      selectForm "assign" = FormKind.assign) ∧
    (∀ a : String, (a == "closed") = false → (a == "reopened") = false →
        (a == "comment") = false → (a == "accept") = false →
        selectForm a = FormKind.assign) ∧
    (∀ (req : CommentRequest) (db : List Ticket) (t : Ticket),
        db.find? (fun x => x.id == req.pk) = some t →
        (is_admin req.user || (req.action == "comment")) = true →
        req.isPost = true → req.formValid = true →
        TicketCommentView req db =
          CommentResult.savedAndRedirect (selectForm req.action) t.id) := by
  refine ⟨by decide, ?_, ?_⟩
  · intro a h1 h2 h3 h4
    unfold selectForm
    simp [h1, h2, h3, h4]
  · intro req db t hf hauth hpost hvalid
    have hguard : (!(is_admin req.user) && !(req.action == "comment")) = false := by
      cases h : is_admin req.user <;> simp_all
    unfold TicketCommentView
    rw [hf]
    simp [hguard, hpost, hvalid]

/-- Claim C4 witness: the selection facts at concrete inputs. -/
theorem comment_actions_witness :
    selectForm "bogus" = FormKind.assign ∧
    TicketCommentView
        { user := uSam, pk := 1, action := "comment", isPost := true,
          formValid := true } [tAlpha] =
      CommentResult.savedAndRedirect (selectForm "comment") tAlpha.id :=
  ⟨comment_actions.2.1 "bogus" (by decide) (by decide) (by decide) (by decide),
   comment_actions.2.2 _ _ tAlpha (by decide) (by decide) rfl rfl⟩

/-- Claim C5: TicketDetailView places in the context every follow-up of the
ticket, private ones included, when the requester is an admin or the
submitter, and only the public follow-ups otherwise, ordered by creation
time descending in both cases; hence a requester who is neither admin nor
submitter never receives a private follow-up. -/
theorem detail_comments_visibility (u : User) (t : Ticket) (db : List FollowUp) :
    ((is_admin u || t.submittedBy == some u.id) = true →
      detailComments u t db =
        sortDescBy FollowUp.createdOn (db.filter (fun f => f.ticketPk == t.id))) ∧
    ((is_admin u || t.submittedBy == some u.id) = false →
      detailComments u t db =
        sortDescBy FollowUp.createdOn
          (db.filter (fun f => !f.isPrivate && f.ticketPk == t.id))) ∧
    ((is_admin u || t.submittedBy == some u.id) = false →
      ∀ f ∈ detailComments u t db, f.isPrivate = false) ∧
    List.Pairwise (fun a b => FollowUp.createdOn b ≤ FollowUp.createdOn a)
      (detailComments u t db) := by
  have hpub : (is_admin u || t.submittedBy == some u.id) = false →
      detailComments u t db =
        sortDescBy FollowUp.createdOn
          (db.filter (fun f => !f.isPrivate && f.ticketPk == t.id)) := by
    intro h
    unfold detailComments FollowUp.objects
    rw [h]
    simp only [Bool.false_eq_true, if_false, filter_comm_and]
  refine ⟨?_, hpub, ?_, ?_⟩
  · intro h
    unfold detailComments FollowUp.all_comments
    rw [h]
    simp
  · intro h f hf
    rw [hpub h, mem_sortDescBy] at hf
    have := (List.mem_filter.mp hf).2
    simp at this
    exact this.1
  · unfold detailComments
    split <;> exact sortDescBy_pairwise _ _

/-- Claim C5 witness: uPat, neither admin nor submitter of tAlpha, gets
only the public follow-ups of the ticket. -/
theorem detail_comments_visibility_witness :
    detailComments uPat tAlpha [fuPub, fuPriv] =
      sortDescBy FollowUp.createdOn
        ([fuPub, fuPriv].filter (fun f => !f.isPrivate && f.ticketPk == tAlpha.id)) :=
  (detail_comments_visibility uPat tAlpha [fuPub, fuPriv]).2.1 (by decide)

/-- Claim C6: when a truthy status kwarg is present, the queryset that
TicketListView.get_queryset returns is rebuilt from all tickets with the
status test alone (closed codes for the value closed, their complement
otherwise, with only the trailing TicketFilter still applied), discarding
the query, username and ticket-type filters applied earlier in the call. -/
theorem status_discards_filters (r : ListRequest) (db : List Ticket) (st : String)
    (h : truthy r.ticketStatus = some st) :
    getQueryset r db =
      sortDescBy Ticket.createdOn
        (db.filter (fun t => statusPred st t && r.filterPred t)) ∧
    getQueryset r db =
      getQueryset
        { q := none, username := none, what := none, ticketType := none,
          ticketStatus := r.ticketStatus, filterPred := r.filterPred } db := by
  have hp : listQueryPred r = fun t => statusPred st t && r.filterPred t := by
    funext t
    simp [listQueryPred, h]
  have hp2 : listQueryPred
      { q := none, username := none, what := none, ticketType := none,
        ticketStatus := r.ticketStatus, filterPred := r.filterPred } =
      fun t => statusPred st t && r.filterPred t := by
    funext t
    simp [listQueryPred, h]
  constructor
  · unfold getQueryset
    rw [hp]
  · unfold getQueryset
    rw [hp, hp2]

/-- Claim C6 witness: a request with query, username and type filters and
the status kwarg closed returns the status-filtered table. -/
theorem status_discards_filters_witness :
    getQueryset rStatus [tAlpha, tBeta] =
      sortDescBy Ticket.createdOn
        ([tAlpha, tBeta].filter (fun t => statusPred "closed" t && rStatus.filterPred t)) :=
  (status_discards_filters rStatus [tAlpha, tBeta] "closed" rfl).1

/-- Claim C7 counterexample: the request rSearch carries the truthy query
bug and no status parameter, ticket tAlpha matches the query, yet the view
returns the empty list because the username kwarg alice also filters, so
the result is not exactly the tickets matching the query. -/
theorem search_exact_cx :
    truthy rSearch.q = some "bug" ∧ truthy rSearch.ticketStatus = none ∧
    matchesQ "bug" tAlpha = true ∧ getQueryset rSearch [tAlpha] = [] := by
  refine ⟨rfl, rfl, by decide, by decide⟩

/-- Claim C7 (amended): for every request with a truthy query q and no
truthy status, username or ticket-type parameter, whose TicketFilter keeps
every row, the queryset is exactly the tickets whose title or description
contains q case-insensitively, ordered by creation time descending. -/
theorem search_exact (r : ListRequest) (db : List Ticket) (s : String)
    (hq : truthy r.q = some s) (hu : truthy r.username = none)
    (ht : truthy r.ticketType = none) (hs : truthy r.ticketStatus = none)
    (hf : ∀ t, r.filterPred t = true) :
    getQueryset r db = sortDescBy Ticket.createdOn (db.filter (matchesQ s)) ∧
    (∀ t, t ∈ getQueryset r db ↔ t ∈ db ∧ matchesQ s t = true) ∧
    List.Pairwise (fun a b => Ticket.createdOn b ≤ Ticket.createdOn a)
      (getQueryset r db) := by
  have hp : listQueryPred r = matchesQ s := by
    funext t
    simp [listQueryPred, qStep, usernameStep, typeStep, matchesQ, hq, hu, ht, hs, hf]
  refine ⟨?_, ?_, ?_⟩
  · unfold getQueryset
    rw [hp]
  · intro t
    unfold getQueryset
    rw [hp, mem_sortDescBy]
    exact List.mem_filter
  · unfold getQueryset
    exact sortDescBy_pairwise _ _

/-- Claim C7 witness: the query bug alone returns exactly the matching
ticket of the two-ticket table. -/
theorem search_exact_witness :
    getQueryset rQuery [tAlpha, tBeta] =
      sortDescBy Ticket.createdOn ([tAlpha, tBeta].filter (matchesQ "bug")) :=
  (search_exact rQuery [tAlpha, tBeta] "bug" rfl rfl rfl rfl (fun _ => rfl)).1

/-- Claim C8: the TagIndexView queryset contains exactly the tickets
bearing a tag with the given slug, and the view paginates at 50 records
per page. -/
theorem tag_index_exact (slug : String) (db : List Ticket) :
    (∀ t, t ∈ TagIndexView.get_queryset slug db ↔ t ∈ db ∧ slug ∈ t.tags) ∧
    TagIndexView.paginate_by = 50 := by
  refine ⟨fun t => ?_, rfl⟩
  unfold TagIndexView.get_queryset
  simp [List.mem_filter]

end TicketApp
